import Mathlib

/-!
Verification of the migration wrapper and the compressed-state integrity
envelope of the based-anchor repository, as a shallow embedding in Lean 4.

Bytes are modelled as natural numbers (real buffers hold values below 256),
owner identities (Solana `Pubkey`s) as natural numbers with `0` standing for
the null sentinel `system_program::ID`, and fallible Rust functions as
functions into `Except Error`.  Stateful writes are modelled by returning the
updated record.
-/

deriving instance DecidableEq for Except

namespace BasedAnchor

/-- An owner identity (Solana `Pubkey`), modelled as a natural number. -/
abbrev Pubkey := Nat

/-- The null sentinel owner identity, `system_program::ID`. -/
def systemProgramId : Pubkey := 0

/-- The error codes of `ErrorCode` that the covered code can produce, plus the
codec-level codes (`AccountDidNotDeserialize`, `AccountDidNotSerialize`) that
the external schema codec and byte writer surface. -/
inductive ErrorCode where
  | AccountNotInitialized
  | AccountOwnedByWrongProgram
  | AccountNotEnoughKeys
  | AccountDidNotDeserialize
  | AccountDidNotSerialize
  | CompressedStateInvalidVersion
  | CompressedStateDidNotDeserialize
  | CompressedStateMismatch
deriving DecidableEq, Repr

/-- An `anchor_lang` error: a bare code, or a code decorated by
`with_pubkeys((actual, expected))` as in `Migration::try_from`. -/
inductive Error where
  | code : ErrorCode → Error
  | codeWithPubkeys : ErrorCode → Pubkey → Pubkey → Error
deriving DecidableEq, Repr

/-- A record (`AccountInfo`): owner identity, lamport balance, and the mutable
data buffer.  The `closed` flag is Modelled from the spec: the external
interface `is_closed(record) -> bool` of §6 (its implementation,
`crate::common::is_closed`, is not among the covered sources), recorded here
as a boolean field of the record. -/
structure AccountInfo where
  owner : Pubkey
  lamports : Nat
  data : List Nat
  closed : Bool
deriving DecidableEq, Repr

/-! ## Compressed state (`src/lang/src/compressed_state.rs`) -/

/-- `CompressedStateVersion`: tag 0 is `Zero`, tag 1 is `Hash`. -/
inductive CompressedStateVersion where
  | Zero
  | Hash
deriving DecidableEq, Repr

/-- `CompressedStateVersion::try_from(&u8)`: tag 0 and 1 decode, any other tag
fails with `CompressedStateInvalidVersion`. -/
def CompressedStateVersion.tryFromByte (value : Nat) :
    Except Error CompressedStateVersion :=
  if value = 0 then .ok .Zero
  else if value = 1 then .ok .Hash
  else .error (.code .CompressedStateInvalidVersion)

/-- `CompressedState`: a version tag plus the stored commitment payload. -/
structure CompressedState where
  version : CompressedStateVersion
  state : List Nat
deriving DecidableEq, Repr

/-- `CompressedState::try_from(&[u8])`.  Reads byte 0 as the version tag
(`data.get(0)`; absent means `CompressedStateDidNotDeserialize`).  For `Zero`
the payload is empty; for `Hash` the payload is `data.get(1..33)`, which in
Rust is `Some` exactly when the buffer holds at least 33 bytes, otherwise the
decode fails with `CompressedStateDidNotDeserialize`. -/
def CompressedState.tryFrom (data : List Nat) : Except Error CompressedState :=
  match data.get? 0 with
  | none => .error (.code .CompressedStateDidNotDeserialize)
  | some n =>
    match CompressedStateVersion.tryFromByte n with
    | .error e => .error e
    | .ok version =>
      match version with
      | .Zero => .ok ⟨version, []⟩
      | .Hash =>
        if 33 ≤ data.length then
          .ok ⟨version, (data.drop 1).take 32⟩
        else
          .error (.code .CompressedStateDidNotDeserialize)

/-- `CompressedState::verify_state`.  The hash primitive
(`solana_program::hash::hash`, SHA-256) is external to the covered core, so it
is a parameter `hashFn`; the code compares `hash(state).as_ref()` byte for
byte with the stored commitment. -/
def CompressedState.verifyState (hashFn : List Nat → List Nat)
    (cs : CompressedState) (state : List Nat) : Except Error Unit :=
  match cs.version with
  | .Zero => .ok ()
  | .Hash =>
    if hashFn state = cs.state then .ok ()
    else .error (.code .CompressedStateMismatch)

/-! ## Migration handle (`src/lang/src/accounts/migration.rs`) -/

variable {F T : Type}

/-- The per-schema interface consumed by `Migration`: the static
`Owner::owner()` identity plus the `AccountDeserialize` codec
(`try_deserialize` and its discriminator-skipping variant
`try_deserialize_unchecked`).  Both are external collaborators declared per
schema type, so they are data here. -/
structure AccountSchema (F : Type) where
  owner : Pubkey
  tryDeserialize : List Nat → Except Error F
  tryDeserializeUnchecked : List Nat → Except Error F

/-- `Migration<'info, MigrateFrom, MigrateTo>`: the decoded old-schema value
together with the wrapped record.  `MigrateTo` is a phantom parameter, as in
the source. -/
structure Migration (F : Type) (T : Type) where
  account : F
  info : AccountInfo
deriving DecidableEq

/-- `Migration::new`. -/
def Migration.new (info : AccountInfo) (account : F) : Migration F T :=
  ⟨account, info⟩

/-- `Migration::set_inner`: replaces the decoded inner value in place. -/
def Migration.setInner (m : Migration F T) (inner : F) : Migration F T :=
  { m with account := inner }

/-- `Migration::into_inner`. -/
def Migration.intoInner (m : Migration F T) : F :=
  m.account

/-- `Migration::try_from`.  Checks, in order: the record is initialized (owner
is not the null sentinel with a zero lamport balance), the record's owner
equals the schema's declared owner (otherwise `AccountOwnedByWrongProgram`
decorated with the actual and expected identities), and then decodes the
record's bytes with the schema codec, propagating its error. -/
def Migration.tryFrom (S : AccountSchema F) (info : AccountInfo) :
    Except Error (Migration F T) :=
  if info.owner = systemProgramId ∧ info.lamports = 0 then
    .error (.code .AccountNotInitialized)
  else if info.owner ≠ S.owner then
    .error (.codeWithPubkeys .AccountOwnedByWrongProgram info.owner S.owner)
  else
    match S.tryDeserialize info.data with
    | .error e => .error e
    | .ok account => .ok (Migration.new info account)

/-- `Migration::try_from_unchecked`: identical checks, but decodes with the
discriminator-skipping codec variant. -/
def Migration.tryFromUnchecked (S : AccountSchema F) (info : AccountInfo) :
    Except Error (Migration F T) :=
  if info.owner = systemProgramId ∧ info.lamports = 0 then
    .error (.code .AccountNotInitialized)
  else if info.owner ≠ S.owner then
    .error (.codeWithPubkeys .AccountOwnedByWrongProgram info.owner S.owner)
  else
    match S.tryDeserializeUnchecked info.data with
    | .error e => .error e
    | .ok account => .ok (Migration.new info account)

/-- Modelled from the spec: the raw byte-buffer writer (`BpfWriter`, an
external collaborator of §6 not among the covered sources) writes the
serialized bytes into the record's buffer starting at offset zero, without
resizing it; per the Contract of §4.1 a serialized length exceeding the
buffer's capacity is a write failure that propagates rather than
truncates. -/
def writeFromStart (buf out : List Nat) : Except Error (List Nat) :=
  if out.length ≤ buf.length then .ok (out ++ buf.drop out.length)
  else .error (.code .AccountDidNotSerialize)

/-- `Migration::exit_with_expected_owner`.  Persists only when the expected
owner equals the program id and the record is not closed: it applies the
caller-supplied `Migrate::migrate` mapping to the decoded value, serializes
the result with the `To` codec (`serT`, an external collaborator), and writes
the bytes into the record's buffer from offset zero; otherwise it is a silent
no-op.  The updated record is returned in place of Rust's in-place
mutation. -/
def Migration.exitWithExpectedOwner (serT : T → Except Error (List Nat))
    (migrateFn : F → T) (m : Migration F T)
    (expectedOwner programId : Pubkey) : Except Error AccountInfo :=
  if expectedOwner = programId ∧ m.info.closed = false then
    match serT (migrateFn m.account) with
    | .error e => .error e
    | .ok out =>
      match writeFromStart m.info.data out with
      | .error e => .error e
      | .ok newData => .ok { m.info with data := newData }
  else
    .ok m.info

/-! ## A concrete demonstration schema, used by the witnesses

A minimal codec over `F = Nat`: a value is stored as its leading byte, and
serialization emits that single byte.  It satisfies the codec contract
(serialize/deserialize round-trip on any tail) and never returns the
framework's ownership error codes. -/

/-- Demonstration deserializer: reads the leading byte. -/
def demoDeser : List Nat → Except Error Nat
  | [] => .error (.code .AccountDidNotDeserialize)
  | b :: _ => .ok b

/-- Demonstration serializer: emits the single byte. -/
def demoSer (n : Nat) : Except Error (List Nat) := .ok [n]

/-- Demonstration schema: owner identity 5 with the demonstration codec. -/
def demoSchema : AccountSchema Nat := ⟨5, demoDeser, demoDeser⟩

/-- A concrete record owned by identity 5 holding the byte 7. -/
def demoInfo : AccountInfo := ⟨5, 10, [7, 9, 9], false⟩

/-! ## Claims about the compressed state -/

/-- C5: `CompressedState::try_from` fails with
`CompressedStateDidNotDeserialize` on a zero-length input, and on an input
whose first byte is 1 followed by fewer than 32 bytes; it fails with
`CompressedStateInvalidVersion` on an input whose first byte is any tag other
than 0 or 1, whatever bytes follow (the tag check precedes the length
check, so the tail `other` is unrestricted). -/
theorem compressedState_tryFrom_error_cases (t : Nat) (rest other : List Nat)
    (ht0 : t ≠ 0) (ht1 : t ≠ 1) (htb : t < 256) (hlen : rest.length < 32) :
    CompressedState.tryFrom [] =
      .error (.code .CompressedStateDidNotDeserialize) ∧
    CompressedState.tryFrom (1 :: rest) =
      .error (.code .CompressedStateDidNotDeserialize) ∧
    CompressedState.tryFrom (t :: other) =
      .error (.code .CompressedStateInvalidVersion) := by
  refine ⟨rfl, ?_, ?_⟩
  · simp [CompressedState.tryFrom, CompressedStateVersion.tryFromByte]
    omega
  · simp [CompressedState.tryFrom, CompressedStateVersion.tryFromByte, ht0, ht1]

/-- Witness for C5 at tag 2 with a 40-byte tail (longer than a commitment,
showing the invalid-tag failure does not depend on the tail's length) and a
one-byte tail after tag 1. -/
theorem compressedState_tryFrom_error_cases_witness :
    CompressedState.tryFrom [] =
      .error (.code .CompressedStateDidNotDeserialize) ∧
    CompressedState.tryFrom (1 :: [9]) =
      .error (.code .CompressedStateDidNotDeserialize) ∧
    CompressedState.tryFrom (2 :: List.replicate 40 4) =
      .error (.code .CompressedStateInvalidVersion) :=
  compressedState_tryFrom_error_cases 2 [9] (List.replicate 40 4) (by decide)
    (by decide) (by decide) (by decide)

/-- C7: for every envelope of version `Zero`, `verify_state` succeeds for
every candidate byte blob, the empty blob included. -/
theorem verifyState_zero_always_ok (hashFn : List Nat → List Nat)
    (cs : CompressedState) (candidate : List Nat)
    (hv : cs.version = CompressedStateVersion.Zero) :
    cs.verifyState hashFn candidate = .ok () := by
  simp [CompressedState.verifyState, hv]

/-- Witness for C7: a `Zero` envelope verifies the empty candidate. -/
theorem verifyState_zero_always_ok_witness :
    CompressedState.verifyState (fun _ => List.replicate 32 0)
      ⟨CompressedStateVersion.Zero, []⟩ [] = .ok () :=
  verifyState_zero_always_ok (fun _ => List.replicate 32 0)
    ⟨CompressedStateVersion.Zero, []⟩ [] rfl

/-- C6: for every envelope of version `Hash`, `verify_state` succeeds exactly
when the hash of the candidate equals the stored commitment byte for byte, and
on mismatch it fails with `CompressedStateMismatch`. -/
theorem verifyState_hash_iff (hashFn : List Nat → List Nat)
    (cs : CompressedState) (candidate : List Nat)
    (hv : cs.version = CompressedStateVersion.Hash) :
    (cs.verifyState hashFn candidate = .ok () ↔ hashFn candidate = cs.state) ∧
    (hashFn candidate ≠ cs.state →
      cs.verifyState hashFn candidate =
        .error (.code .CompressedStateMismatch)) := by
  constructor
  · constructor
    · intro h
      by_contra hne
      simp [CompressedState.verifyState, hv, hne] at h
    · intro h
      simp [CompressedState.verifyState, hv, h]
  · intro hne
    simp [CompressedState.verifyState, hv, hne]

/-- Witness for C6: a matching candidate verifies, a mismatching hash value
fails, under a concrete stand-in hash function. -/
theorem verifyState_hash_iff_witness :
    (CompressedState.verifyState (fun bs => List.replicate 32 bs.length)
        ⟨CompressedStateVersion.Hash, List.replicate 32 1⟩ [7] = .ok () ↔
      List.replicate 32 1 = List.replicate 32 1) ∧
    (List.replicate 32 1 ≠ List.replicate 32 1 →
      CompressedState.verifyState (fun bs => List.replicate 32 bs.length)
          ⟨CompressedStateVersion.Hash, List.replicate 32 1⟩ [7] =
        .error (.code .CompressedStateMismatch)) := by
  have h := verifyState_hash_iff (fun bs => List.replicate 32 bs.length)
    ⟨CompressedStateVersion.Hash, List.replicate 32 1⟩ [7] rfl
  simpa using h

/-- C9: every envelope produced by `CompressedState::try_from` satisfies the
invariant that the tag determines the payload length: `Zero` carries an empty
payload, `Hash` carries exactly 32 bytes. -/
theorem compressedState_tryFrom_invariant (data : List Nat)
    (cs : CompressedState) (h : CompressedState.tryFrom data = .ok cs) :
    (cs.version = CompressedStateVersion.Zero → cs.state = []) ∧
    (cs.version = CompressedStateVersion.Hash → cs.state.length = 32) := by
  cases data with
  | nil => simp [CompressedState.tryFrom] at h
  | cons n rest =>
    unfold CompressedState.tryFrom CompressedStateVersion.tryFromByte at h
    simp only [List.get?_cons_zero] at h
    split at h
    · simp at h
    · split at h
      · cases h
        exact ⟨fun _ => rfl, fun hv => by cases hv⟩
      · split at h
        · rename_i h32
          cases h
          refine ⟨fun hv => ?_, fun _ => ?_⟩
          · cases hv
          · simp only [List.length_take, List.length_drop, List.length_cons]
            simp only [List.length_cons] at h32
            omega
        · simp at h

/-- Witness for C9 on a concrete 33-byte `Hash` buffer. -/
theorem compressedState_tryFrom_invariant_witness :
    (CompressedState.version ⟨CompressedStateVersion.Hash, List.replicate 32 7⟩
        = CompressedStateVersion.Zero →
      CompressedState.state ⟨CompressedStateVersion.Hash, List.replicate 32 7⟩
        = []) ∧
    (CompressedState.version ⟨CompressedStateVersion.Hash, List.replicate 32 7⟩
        = CompressedStateVersion.Hash →
      (CompressedState.state
          ⟨CompressedStateVersion.Hash, List.replicate 32 7⟩).length = 32) :=
  compressedState_tryFrom_invariant (1 :: List.replicate 32 7)
    ⟨CompressedStateVersion.Hash, List.replicate 32 7⟩ (by decide)

/-- C10: `CompressedState::try_from` ignores all bytes beyond those the tag
requires: any buffer headed by tag 0 decodes to the `Zero` envelope whatever
follows, and any buffer headed by tag 1 followed by a 32-byte commitment
decodes to that commitment whatever extra bytes are appended. -/
theorem compressedState_tryFrom_ignores_tail (rest hb extra : List Nat)
    (hlen : hb.length = 32) :
    CompressedState.tryFrom (0 :: rest) =
      .ok ⟨CompressedStateVersion.Zero, []⟩ ∧
    CompressedState.tryFrom (1 :: (hb ++ extra)) =
      .ok ⟨CompressedStateVersion.Hash, hb⟩ := by
  constructor
  · simp [CompressedState.tryFrom, CompressedStateVersion.tryFromByte]
  · have htake : (hb ++ extra).take 32 = hb := List.take_left' hlen
    simp [CompressedState.tryFrom, CompressedStateVersion.tryFromByte, htake]
    omega

/-- Witness for C10 on concrete buffers with trailing garbage. -/
theorem compressedState_tryFrom_ignores_tail_witness :
    CompressedState.tryFrom (0 :: [5, 6]) =
      .ok ⟨CompressedStateVersion.Zero, []⟩ ∧
    CompressedState.tryFrom (1 :: (List.replicate 32 3 ++ [9])) =
      .ok ⟨CompressedStateVersion.Hash, List.replicate 32 3⟩ :=
  compressedState_tryFrom_ignores_tail [5, 6] (List.replicate 32 3) [9]
    (by decide)

/-! ## Claims about the migration handle -/

/-- C1: for every valid `From` value and record of sufficient capacity owned
by `From::owner()`, `try_from` followed immediately by
`exit_with_expected_owner` with `expected_owner = program_id` on a not-closed
record leaves the buffer holding the serialization of `migrate(value)`:
re-reading and decoding as `To` yields exactly `migrate(value)`.  The `To`
codec is an external collaborator; the hypothesis `hrt` is its
serialize/deserialize round-trip contract. -/
theorem migration_tryFrom_exit_roundtrip
    (S : AccountSchema F) (serT : T → Except Error (List Nat))
    (deserT : List Nat → Except Error T) (migrateFn : F → T)
    (info : AccountInfo) (v : F) (pid : Pubkey) (out : List Nat)
    (hinit : ¬ (info.owner = systemProgramId ∧ info.lamports = 0))
    (hown : info.owner = S.owner)
    (hdecode : S.tryDeserialize info.data = .ok v)
    (hclosed : info.closed = false)
    (hser : serT (migrateFn v) = .ok out)
    (hcap : out.length ≤ info.data.length)
    (hrt : ∀ (t : T) (bs rest : List Nat),
      serT t = .ok bs → deserT (bs ++ rest) = .ok t) :
    Migration.tryFrom (T := T) S info = .ok (Migration.new info v) ∧
    Migration.exitWithExpectedOwner serT migrateFn (Migration.new info v)
        pid pid =
      .ok { info with data := out ++ info.data.drop out.length } ∧
    deserT (out ++ info.data.drop out.length) = .ok (migrateFn v) := by
  refine ⟨?_, ?_, hrt _ _ _ hser⟩
  · simp only [Migration.tryFrom]
    rw [if_neg hinit, if_neg (not_not_intro hown), hdecode]
  · simp [Migration.exitWithExpectedOwner, Migration.new, hclosed, hser,
      writeFromStart, hcap]

/-- Witness for C1 on the demonstration schema: the record holds byte 7, the
migration maps it to 8, and the persisted buffer decodes back to 8. -/
theorem migration_tryFrom_exit_roundtrip_witness :
    Migration.tryFrom (T := Nat) demoSchema demoInfo =
      .ok (Migration.new demoInfo 7) ∧
    Migration.exitWithExpectedOwner demoSer (fun n => n + 1)
        (Migration.new demoInfo 7) 5 5 =
      .ok { demoInfo with data := [8] ++ demoInfo.data.drop 1 } ∧
    demoDeser ([8] ++ demoInfo.data.drop 1) = .ok 8 :=
  migration_tryFrom_exit_roundtrip demoSchema demoSer demoDeser
    (fun n => n + 1) demoInfo 7 5 [8] (by decide) rfl rfl rfl rfl (by decide)
    (by
      intro t bs rest hh
      injection hh with h1
      subst h1
      rfl)

/-- C2 counterexample: a record owned by the null sentinel with zero lamports
whose owner differs from the schema owner 5 makes `try_from` fail with
`AccountNotInitialized`, not `AccountOwnedByWrongProgram`: the
initialization check runs first. -/
theorem migration_tryFrom_wrongProgram_counterexample :
    Migration.tryFrom (T := Nat) demoSchema ⟨0, 0, [], false⟩ =
      .error (.code .AccountNotInitialized) ∧
    Migration.tryFrom (T := Nat) demoSchema ⟨0, 0, [], false⟩ ≠
      .error (.codeWithPubkeys .AccountOwnedByWrongProgram 0 5) := by
  decide

/-- C2 amended: whenever the record's owner differs from `From::owner()` and
the record is not the uninitialized case (null-sentinel owner with zero
lamports), `try_from` fails with `AccountOwnedByWrongProgram` carrying the
actual and the expected owner identity. -/
theorem migration_tryFrom_wrongProgram
    (S : AccountSchema F) (info : AccountInfo)
    (hinit : ¬ (info.owner = systemProgramId ∧ info.lamports = 0))
    (hne : info.owner ≠ S.owner) :
    Migration.tryFrom (T := T) S info =
      .error (.codeWithPubkeys .AccountOwnedByWrongProgram
        info.owner S.owner) := by
  simp only [Migration.tryFrom]
  rw [if_neg hinit, if_pos hne]

/-- Witness for the amended C2: owner 3 against expected owner 5. -/
theorem migration_tryFrom_wrongProgram_witness :
    Migration.tryFrom (T := Nat) demoSchema ⟨3, 10, [], false⟩ =
      .error (.codeWithPubkeys .AccountOwnedByWrongProgram 3 5) :=
  migration_tryFrom_wrongProgram demoSchema ⟨3, 10, [], false⟩ (by decide)
    (by decide)

/-- C3: `try_from` and `try_from_unchecked` fail with
`AccountNotInitialized` exactly when the record's owner is the null sentinel
and its lamport balance is zero.  The hypotheses state that the external
schema codec never itself returns the framework's `AccountNotInitialized`
code. -/
theorem migration_tryFrom_notInitialized_iff
    (S : AccountSchema F) (info : AccountInfo)
    (hcodec : ∀ bs, S.tryDeserialize bs ≠
      .error (.code .AccountNotInitialized))
    (hcodecU : ∀ bs, S.tryDeserializeUnchecked bs ≠
      .error (.code .AccountNotInitialized)) :
    (Migration.tryFrom (T := T) S info =
        .error (.code .AccountNotInitialized) ↔
      info.owner = systemProgramId ∧ info.lamports = 0) ∧
    (Migration.tryFromUnchecked (T := T) S info =
        .error (.code .AccountNotInitialized) ↔
      info.owner = systemProgramId ∧ info.lamports = 0) := by
  constructor
  · constructor
    · intro h
      unfold Migration.tryFrom at h
      split at h
      · rename_i hc
        exact hc
      · split at h
        · simp at h
        · split at h
          · rename_i e heq
            cases h
            exact absurd heq (hcodec info.data)
          · simp at h
    · intro hc
      simp [Migration.tryFrom, hc]
  · constructor
    · intro h
      unfold Migration.tryFromUnchecked at h
      split at h
      · rename_i hc
        exact hc
      · split at h
        · simp at h
        · split at h
          · rename_i e heq
            cases h
            exact absurd heq (hcodecU info.data)
          · simp at h
    · intro hc
      simp [Migration.tryFromUnchecked, hc]

/-- Witness for C3 on the demonstration schema at an uninitialized record. -/
theorem migration_tryFrom_notInitialized_iff_witness :
    (Migration.tryFrom (T := Nat) demoSchema ⟨0, 0, [], false⟩ =
        .error (.code .AccountNotInitialized) ↔
      AccountInfo.owner ⟨0, 0, [], false⟩ = systemProgramId ∧
        AccountInfo.lamports ⟨0, 0, [], false⟩ = 0) ∧
    (Migration.tryFromUnchecked (T := Nat) demoSchema ⟨0, 0, [], false⟩ =
        .error (.code .AccountNotInitialized) ↔
      AccountInfo.owner ⟨0, 0, [], false⟩ = systemProgramId ∧
        AccountInfo.lamports ⟨0, 0, [], false⟩ = 0) :=
  migration_tryFrom_notInitialized_iff demoSchema ⟨0, 0, [], false⟩
    (by intro bs; cases bs <;> simp [demoSchema, demoDeser])
    (by intro bs; cases bs <;> simp [demoSchema, demoDeser])

/-- C4: whenever `expected_owner` differs from `program_id` or the record is
marked closed, `exit_with_expected_owner` returns success and leaves the
record's buffer completely unchanged, whatever value was placed in memory via
`set_inner`. -/
theorem migration_exit_noop (serT : T → Except Error (List Nat))
    (migrateFn : F → T) (m : Migration F T) (x : F)
    (expectedOwner programId : Pubkey)
    (h : expectedOwner ≠ programId ∨ m.info.closed = true) :
    Migration.exitWithExpectedOwner serT migrateFn (m.setInner x)
      expectedOwner programId = .ok m.info := by
  unfold Migration.exitWithExpectedOwner
  rw [if_neg]
  · rfl
  · rintro ⟨h1, h2⟩
    rcases h with h3 | h3
    · exact h3 h1
    · have h4 : m.info.closed = false := h2
      rw [h3] at h4
      exact Bool.noConfusion h4

/-- Witness for C4: mismatched program id, mutated inner value, buffer kept
as it was. -/
theorem migration_exit_noop_witness :
    Migration.exitWithExpectedOwner demoSer (fun n => n + 1)
      ((Migration.new (T := Nat) demoInfo 7).setInner 3) 1 2 =
    .ok demoInfo :=
  migration_exit_noop demoSer (fun n => n + 1) (Migration.new demoInfo 7) 3
    1 2 (Or.inl (by decide))

/-- C8: when `exit_with_expected_owner` decides to persist and the serialized
`To` value is longer than the record's buffer, the call returns an error
instead of truncating the write or succeeding.  The write failure of the
byte-buffer writer is modelled from the spec's Contract in §4.1. -/
theorem migration_exit_overflow_errors (serT : T → Except Error (List Nat))
    (migrateFn : F → T) (m : Migration F T) (programId : Pubkey)
    (out : List Nat)
    (hclosed : m.info.closed = false)
    (hser : serT (migrateFn m.account) = .ok out)
    (hbig : m.info.data.length < out.length) :
    Migration.exitWithExpectedOwner serT migrateFn m programId programId =
      .error (.code .AccountDidNotSerialize) := by
  have hnle : ¬ out.length ≤ m.info.data.length := Nat.not_le.mpr hbig
  simp [Migration.exitWithExpectedOwner, writeFromStart, hclosed, hser, hnle]

/-- Witness for C8: a one-byte serialization against an empty buffer. -/
theorem migration_exit_overflow_errors_witness :
    Migration.exitWithExpectedOwner demoSer (fun n => n)
      (Migration.new (T := Nat) ⟨5, 10, [], false⟩ 7) 5 5 =
    .error (.code .AccountDidNotSerialize) :=
  migration_exit_overflow_errors demoSer (fun n => n)
    (Migration.new ⟨5, 10, [], false⟩ 7) 5 [7] rfl rfl (by decide)

end BasedAnchor
